import Mathlib

/-
Verification of the OCR_Service request pipeline (src/api/main.py and
src/tools/aws_s3.py). Python string primitives are embedded as functions on
`List Char`; the handlers are embedded as pure functions over an oracle that
supplies the outcomes of the external collaborators (the OCR model, the
filesystem paths picked by tempfile, the S3 client), together with an explicit
trace of the filesystem operations the handler performs on its staged files.
-/

/-- Python `str.startswith` / list-prefix test on explicit character lists. -/
def startsList : List Char → List Char → Bool
  | [], _ => true
  | _ :: _, [] => false
  | a :: as, b :: bs => (a == b) && startsList as bs

/-- Python `sub in s` (contiguous substring test) on character lists. -/
def containsSub (sub : List Char) : List Char → Bool
  | [] => sub.isEmpty
  | c :: t => startsList sub (c :: t) || containsSub sub t

/-- Python `s.startswith(t)`. -/
def pyStartsWith (s t : String) : Bool := startsList t.data s.data

/-- Python `s.endswith(t)`. -/
def pyEndsWith (s t : String) : Bool := t.data.isSuffixOf s.data

/-- Python `t in s`. -/
def pyContains (s t : String) : Bool := containsSub t.data s.data

/-- Split a character list on every occurrence of `sep` (Python `str.split(sep)`
with a single-character separator). The result is always nonempty. -/
def splitOnChar (sep : Char) : List Char → List (List Char)
  | [] => [[]]
  | c :: t =>
    match splitOnChar sep t with
    | [] => [[c]]
    | h :: r => if c = sep then [] :: h :: r else (c :: h) :: r

/-- Python `s.split(sep, 1)` for a single-character separator: `none` when the
separator does not occur (so 2-tuple unpacking would raise ValueError),
otherwise the parts before and after the first occurrence. -/
def splitFirst (sep : Char) : List Char → Option (List Char × List Char)
  | [] => none
  | c :: t =>
    if c = sep then some ([], t)
    else
      match splitFirst sep t with
      | none => none
      | some (a, b) => some (c :: a, b)

/-- Python `os.path.basename`: the part of the path after the last slash. -/
def basenameStr (s : String) : String :=
  String.mk ((splitOnChar '/' s.data).getLastD [])

/-- Python `str.lower` (ASCII case folding, which is what the extension
comparisons in the source exercise). -/
def lowerStr (s : String) : String := String.mk (s.data.map Char.toLower)

/-- Python `pathlib.Path(p).suffix`: the extension (with the dot) of the final
path component; empty when the last dot is absent, leading, or trailing. -/
def pySuffix (filename : String) : String :=
  let name := (splitOnChar '/' filename.data).getLastD []
  let rev := name.reverse
  let k := rev.indexOf '.'
  if 0 < k && k + 1 < rev.length then String.mk ((rev.take (k + 1)).reverse) else ""

/-- Python `str.capitalize`: first character uppercased, the rest lowercased. -/
def pyCapitalize (s : String) : String :=
  match s.data with
  | [] => ""
  | c :: t => String.mk (c.toUpper :: t.map Char.toLower)

/-- Join a list of strings with a separator (Python `sep.join(xs)`). -/
def joinSep (sep : String) : List String → String
  | [] => ""
  | [x] => x
  | x :: y :: t => x ++ sep ++ joinSep sep (y :: t)

/-- Python `os.path.join(a, b)` for two components. -/
def os_path_join (a b : String) : String :=
  if pyStartsWith b "/" then b
  else if pyEndsWith a "/" then a ++ b
  else a ++ "/" ++ b

/-- src/api/main.py line 146: `'.'.join(file.filename.split('.')[:-1])`, the
naming seed used by the full-parse flow. -/
def original_name_of (filename : String) : String :=
  joinSep "." (((splitOnChar '.' filename.data).map String.mk).dropLast)

/-- src/api/main.py line 299: the extension allow-list of the single-task flow.
The source writes it as a Python set literal, whose iteration order is
environment-dependent; membership is order-independent. -/
def allowed_extensions : List String := [".pdf", ".jpg", ".jpeg", ".png"]

/-- One rendering of `', '.join(allowed_extensions)` (main.py line 304); the
exact order is unspecified in Python and no theorem below depends on it. -/
def allowed_join : String := joinSep ", " allowed_extensions

/-- src/api/main.py lines 300-301: `Path(file.filename).suffix.lower() in
allowed_extensions`. -/
def extAllowed (filename : String) : Bool :=
  allowed_extensions.contains (lowerStr (pySuffix filename))

/-- Response model of the single-task endpoints (main.py lines 35-40). -/
structure TaskResponse where
  success : Bool
  task_type : String
  content : String
  message : Option String
  config : Option String
deriving Repr, DecidableEq

/-- Response model of the full-parse endpoint (main.py lines 42-47). -/
structure ParseResponse where
  success : Bool
  message : String
  output_dir : Option String
  files : Option (List String)
  download_url : Option String
deriving Repr, DecidableEq

/-- Exceptions the handlers raise: FastAPI HTTPException or a generic one.
`Exn.str` is Python `str(e)` (starlette renders HTTPException as
`"{status_code}: {detail}"`). -/
inductive Exn where
  | http (status : Nat) (detail : String)
  | err (msg : String)
deriving Repr, DecidableEq

def Exn.str : Exn → String
  | .http s d => toString s ++ ": " ++ d
  | .err m => m

/-- A filesystem effect on a staged file, recorded in handler traces. -/
inductive FsOp where
  | create (path : String)
  | unlink (path : String)
deriving Repr, DecidableEq

/-- Apply one filesystem operation to the set of existing paths. -/
def applyOp (fs : List String) : FsOp → List String
  | .create p => if fs.contains p then fs else fs ++ [p]
  | .unlink p => fs.filter (fun q => !(q == p))

/-- Apply a trace of filesystem operations in order. -/
def applyOps (ops : List FsOp) (fs : List String) : List String := ops.foldl applyOp fs

/-- Does path `p` exist in filesystem state `fs`. -/
def fileExists (fs : List String) (p : String) : Bool := fs.contains p

/-- How many times a trace deletes the path `p`. -/
def countUnlinks (p : String) : List FsOp → Nat
  | [] => 0
  | FsOp.unlink q :: t => (if q = p then 1 else 0) + countUnlinks p t
  | FsOp.create _ :: t => countUnlinks p t

/-- Oracle for one run of `perform_ocr_task` (src/api/main.py lines 292-367):
`tempPath` is the path NamedTemporaryFile picks at line 308; `task` is the
combined outcome of `single_task_recognition` and `os.listdir(result_dir)`
(lines 328-338), an exception message or the listing; `readFile` gives the
text of a result file (lines 342-344); `configBase` is
`os.path.basename(os.environ["MONKEYOCR_CONFIG_FILE_PATH"])` (line 354). -/
structure OcrOracle where
  tempPath : String
  task : Except String (List String)
  readFile : String → String
  configBase : String

/-- src/api/main.py lines 292-367 (`perform_ocr_task`): validate the extension,
stage the upload to a temp file, run the task, read the single
`*_{task_type}_result.md` file, and convert every exception into an in-band
`TaskResponse` at the outermost `except` (line 361). The trace records that the
staged file is created at line 308 and unlinked in the `finally` at line 359 on
every path that reaches staging. -/
def perform_ocr_task (filename taskType : String) (o : OcrOracle) :
    TaskResponse × List FsOp :=
  if extAllowed filename = false then
    -- lines 301-305: HTTPException(400) raised before staging, caught at line 361
    (⟨false, taskType, "",
      some ("OCR task failed: " ++ Exn.str (Exn.http 400
        ("Unsupported file type: " ++ lowerStr (pySuffix filename) ++
          ". Allowed: " ++ allowed_join))),
      none⟩, [])
  else
    (match o.task with
     | Except.error e =>
       -- exception inside the inner try: finally unlinks, outer except returns in-band
       ⟨false, taskType, "", some ("OCR task failed: " ++ e), none⟩
     | Except.ok files =>
       match files.filter (fun f => pyEndsWith f ("_" ++ taskType ++ "_result.md")) with
       | [] =>
         -- lines 338-340: raise Exception("No result file generated")
         ⟨false, taskType, "", some "OCR task failed: No result file generated", none⟩
       | f :: _ =>
         ⟨true, taskType, o.readFile f,
          some (pyCapitalize taskType ++ " extraction completed successfully"),
          some o.configBase⟩,
     [FsOp.create o.tempPath, FsOp.unlink o.tempPath])

/-- src/api/main.py line 87: `temp_dir = "/workspace/MonkeyOCR/app/temp"`. -/
def temp_dir : String := "/workspace/MonkeyOCR/app/temp"

/-- src/api/main.py line 89: the directory the `/static` mount serves. -/
def static_mount_directory : String := temp_dir

/-- src/api/main.py line 178: the directory `parse_document` writes archives to. -/
def parse_zip_directory : String := "/app/tmp"

/-- src/api/main.py line 235: the directory `/download/{filename}` reads from. -/
def download_directory : String := "/app/tmp"

/-- src/api/main.py lines 191-211: the archive entry name computed for one
walked file of the full-parse result directory, given the naming seed
`original_name` and the file's path relative to the result directory. The
`filename` of the source's walk is the basename of that relative path. -/
def new_filename (original_name rel_path : String) : String :=
  let filename := basenameStr rel_path
  if pyEndsWith filename ".md" then original_name ++ ".md"
  else if pyEndsWith filename "_content_list.json" then original_name ++ "_content_list.json"
  else if pyEndsWith filename "_middle.json" then original_name ++ "_middle.json"
  else if pyEndsWith filename "_model.pdf" then original_name ++ "_model.pdf"
  else if pyEndsWith filename "_layout.pdf" then original_name ++ "_layout.pdf"
  else if pyEndsWith filename "_spans.pdf" then original_name ++ "_spans.pdf"
  else if pyContains rel_path "images/" then
    "images/" ++ original_name ++ "_" ++ basenameStr rel_path
  else original_name ++ "_" ++ filename

/-- An ordered naming rule: an applicability test on the relative path and the
renamer producing the archive entry name. -/
def NamingRule : Type := (String → Bool) × (String → String)

/-- First-match-wins evaluation of an ordered rule list, with a default. -/
def applyRules (dflt : String → String) (rel : String) : List NamingRule → String
  | [] => dflt rel
  | (p, r) :: rest => if p rel then r rel else applyRules dflt rel rest

/-- The fixed ordered rule chain of the Archive Builder (spec section 4.3),
stated as (predicate, renamer) pairs evaluated first-match-wins. -/
def namingRules (seed : String) : List NamingRule :=
  [ (fun rel => pyEndsWith (basenameStr rel) ".md", fun _ => seed ++ ".md"),
    (fun rel => pyEndsWith (basenameStr rel) "_content_list.json",
      fun _ => seed ++ "_content_list.json"),
    (fun rel => pyEndsWith (basenameStr rel) "_middle.json", fun _ => seed ++ "_middle.json"),
    (fun rel => pyEndsWith (basenameStr rel) "_model.pdf", fun _ => seed ++ "_model.pdf"),
    (fun rel => pyEndsWith (basenameStr rel) "_layout.pdf", fun _ => seed ++ "_layout.pdf"),
    (fun rel => pyEndsWith (basenameStr rel) "_spans.pdf", fun _ => seed ++ "_spans.pdf"),
    (fun rel => pyContains rel "images/",
      fun rel => "images/" ++ seed ++ "_" ++ basenameStr rel) ]

/-- The fall-through rule of the chain: `{seed}_{originalFilename}`. -/
def defaultRule (seed : String) : String → String :=
  fun rel => seed ++ "_" ++ basenameStr rel

/-- Oracle for one run of `parse_document`: `tempPath` from NamedTemporaryFile
(line 149), `parseResult` the outcome of `parse_pdf` plus the walk of the
result directory (lines 160-174) as (result_dir, relative paths), `zipErr` a
possible exception while writing the archive (lines 181-213), and `timestamp`
the value of `int(time.time())` at line 177. -/
structure ParseOracle where
  tempPath : String
  parseResult : Except String (String × List String)
  zipErr : Option String
  timestamp : Nat

/-- The observable outcome of one `parse_document` run: the transport-level
result, the staged-file trace, and the archive entry names written. -/
structure ParseRun where
  result : Except Exn ParseResponse
  ops : List FsOp
  zipEntries : List String

/-- src/api/main.py lines 134-230 (`parse_document`): validate that the
filename ends in `.pdf`, stage to a temp file, run `parse_pdf` in the pool,
walk the result directory, write the renamed archive under `/app/tmp`, and
return a `/static/...` download URL. Every exception escapes as a
transport-level HTTPException 500 (line 230) whose detail wraps `str(e)`; the
staged file is unlinked in the `finally` at line 227 on every path that
reaches staging. -/
def parse_document (filename : String) (o : ParseOracle) : ParseRun :=
  if pyEndsWith (lowerStr filename) ".pdf" = false then
    -- lines 142-143: HTTPException(400), re-raised at line 230 as a 500
    { result := Except.error (Exn.http 500 ("Parsing failed: " ++
        Exn.str (Exn.http 400 "Only PDF files are supported for document parsing"))),
      ops := [], zipEntries := [] }
  else
    let original_name := original_name_of filename
    match o.parseResult with
    | Except.error e =>
      { result := Except.error (Exn.http 500 ("Parsing failed: " ++ e)),
        ops := [FsOp.create o.tempPath, FsOp.unlink o.tempPath], zipEntries := [] }
    | Except.ok (result_dir, walked) =>
      let zip_filename := original_name ++ "_parsed_" ++ toString o.timestamp ++ ".zip"
      let zip_path := os_path_join parse_zip_directory zip_filename
      match o.zipErr with
      | some e =>
        -- ZipFile(zip_path, 'w') creates the archive file before the failure
        { result := Except.error (Exn.http 500 ("Parsing failed: " ++ e)),
          ops := [FsOp.create o.tempPath, FsOp.create zip_path, FsOp.unlink o.tempPath],
          zipEntries := [] }
      | none =>
        { result := Except.ok
            ⟨true, "Document parsing completed successfully", some result_dir,
             some walked, some ("/static/" ++ zip_filename)⟩,
          ops := [FsOp.create o.tempPath, FsOp.create zip_path, FsOp.unlink o.tempPath],
          zipEntries := walked.map (new_filename original_name) }

/-- src/api/main.py lines 232-244 (`download_file`): serve
`os.path.join("/app/tmp", filename)` if it exists, else a transport 404. -/
def download_file (filename : String) (existing : List String) : Except Exn String :=
  let file_path := os_path_join download_directory filename
  if fileExists existing file_path then Except.ok file_path
  else Except.error (Exn.http 404 "File not found")

/-- src/api/main.py line 110: the fixed filename of the synthetic upload built
by `extract_text_from_s3`. -/
def from_s3_filename : String := "from_s3.pdf"

/-- src/api/main.py lines 106-121 (`extract_text_from_s3`): download the S3
object, wrap the bytes as an upload named `from_s3.pdf`, delegate to
`perform_ocr_task`; a download failure is converted to an in-band failure. -/
def extract_text_from_s3 (dl : Except String (List Nat)) (o : OcrOracle) :
    TaskResponse × List FsOp :=
  match dl with
  | Except.error e =>
    (⟨false, "text", "", some ("Error occurred: " ++ e), none⟩, [])
  | Except.ok _ => perform_ocr_task from_s3_filename "text" o

/-- State of the log directory: whether it exists, and its contents. -/
structure LogState where
  dirOk : Bool
  contents : List String
deriving Repr, DecidableEq

/-- src/tools/aws_s3.py lines 51-56 (`delete_files_in_directory`): ValueError
when the path is not a directory, else rmtree followed by makedirs, leaving
the directory existing and empty. -/
def delete_files_in_directory (st : LogState) : Except String LogState :=
  if st.dirOk = false then Except.error "not a valid directory"
  else Except.ok ⟨true, []⟩

/-- Oracle for one run of `upload_logs_to_AWS_S3`: possible exception messages
from `os.makedirs` (line 249), `zip_folder` (line 250) and
`upload_file_to_s3` (line 251). `none` means the step succeeds. -/
structure LogOracle where
  mkdirsErr : Option String
  zipErr : Option String
  uploadErr : Option String

/-- src/api/main.py lines 246-269 (`upload_logs_to_AWS_S3`): makedirs, zip the
log folder, upload it, then drain the folder with
`delete_files_in_directory`; any exception yields the in-band failure
TaskResponse of lines 256-261. Returns the response, the final log-directory
state, and whether the drain executed. -/
def upload_logs_to_AWS_S3 (o : LogOracle) (st : LogState) :
    TaskResponse × LogState × Bool :=
  match o.mkdirsErr with
  | some e => (⟨false, "Log", "", some ("OCR task failed: " ++ e), none⟩, st, false)
  | none =>
    let st₁ : LogState := ⟨true, st.contents⟩
    match o.zipErr with
    | some e => (⟨false, "Log", "", some ("OCR task failed: " ++ e), none⟩, st₁, false)
    | none =>
      match o.uploadErr with
      | some e => (⟨false, "Log", "", some ("OCR task failed: " ++ e), none⟩, st₁, false)
      | none =>
        match delete_files_in_directory st₁ with
        | Except.error e =>
          (⟨false, "Log", "", some ("OCR task failed: " ++ e), none⟩, st₁, false)
        | Except.ok st₂ =>
          (⟨true, "Log", "", some "log files uploaded to AWS S3", none⟩, st₂, true)

/-- Observable trace of `download_file_from_s3`: whether a boto3 client was
created, whether a GetObject fetch was attempted, and the outcome. -/
structure S3Trace where
  clientCreated : Bool
  fetched : Bool
  result : Except String (String × String)
deriving Repr

/-- src/tools/aws_s3.py lines 37-47 (`download_file_from_s3`): reject urls not
starting with `s3://` with ValueError("Invalid S3 URL format") before any
client is built; split off the scheme, split the remainder once on `/` (a
missing slash makes the 2-tuple unpacking raise before any client is built);
only then create the boto3 client and fetch the object. -/
def download_file_from_s3 (s3_url : String) : S3Trace :=
  if pyStartsWith s3_url "s3://" = false then
    ⟨false, false, Except.error "Invalid S3 URL format"⟩
  else
    match splitFirst '/' (s3_url.data.drop 5) with
    | none => ⟨false, false, Except.error "not enough values to unpack"⟩
    | some (bucket, key) => ⟨true, true, Except.ok (String.mk bucket, String.mk key)⟩

/-- src/api/main.py line 52: `executor = ThreadPoolExecutor(max_workers=2)`. -/
def executorMaxWorkers : Nat := 2

/-- Modelled from the spec: the Task Runner's bounded worker pool (spec
sections 4.1 and 5). The pool itself is `concurrent.futures.ThreadPoolExecutor`,
library code not under src/: jobs `queued` in submission order, at most
`executorMaxWorkers` `running`, finished jobs in `done`; `submitted` and
`started` are the histories of submissions and starts, in order. -/
structure PoolState where
  queued : List Nat
  running : List Nat
  done : List Nat
  submitted : List Nat
  started : List Nat
deriving Repr, DecidableEq

/-- The empty pool at startup. -/
def PoolState.initState : PoolState := ⟨[], [], [], [], []⟩

/-- Modelled from the spec: one transition of the worker pool. A submission
enqueues at the back; a worker may start the front queued job only when fewer
than `executorMaxWorkers` jobs run; a running job may finish. -/
inductive PoolStep : PoolState → PoolState → Prop where
  | submit (j : Nat) (s : PoolState) :
      PoolStep s ⟨s.queued ++ [j], s.running, s.done, s.submitted ++ [j], s.started⟩
  | start (j : Nat) (rest : List Nat) (s : PoolState)
      (hq : s.queued = j :: rest) (hcap : s.running.length < executorMaxWorkers) :
      PoolStep s ⟨rest, s.running ++ [j], s.done, s.submitted, s.started ++ [j]⟩
  | finish (j : Nat) (s : PoolState) (hj : j ∈ s.running) :
      PoolStep s ⟨s.queued, s.running.erase j, s.done ++ [j], s.submitted, s.started⟩

/-- Pool states reachable from startup. -/
inductive PoolReach : PoolState → Prop where
  | init : PoolReach PoolState.initState
  | step {s t : PoolState} : PoolReach s → PoolStep s t → PoolReach t

/-- A demonstration pool state: three submissions, two running, one queued. -/
def poolDemo : PoolState := ⟨[2], [0, 1], [], [0, 1, 2], [0, 1]⟩

/-- Fixture oracle for single-task runs. -/
def oracle₀ : OcrOracle := ⟨"/tmp/stage-in", Except.ok [], fun _ => "", "cfg.yaml"⟩

/-- Fixture oracle for full-parse runs. -/
def po₀ : ParseOracle := ⟨"/tmp/stage-pdf", Except.ok ("/resdir", []), none, 0⟩

/-- Fixture oracle for the archive-naming example of the spec. -/
def exampleOracle : ParseOracle :=
  ⟨"/tmp/in", Except.ok ("/resdir",
    ["report.md", "report_content_list.json", "images/fig1.png"]), none, 0⟩

/-- Fixture oracle for a successful full-parse run with timestamp 111. -/
def c6Oracle : ParseOracle := ⟨"/tmp/in", Except.ok ("/resdir", ["report.md"]), none, 111⟩

/-- Fixture oracle for a fully successful log upload. -/
def logOracle₀ : LogOracle := ⟨none, none, none⟩

/-- Fixture log-directory state with two log files. -/
def logSt₀ : LogState := ⟨true, ["a.log", "b.log"]⟩

theorem startsList_iff (s l : List Char) : startsList s l = true ↔ s <+: l := by
  induction s generalizing l with
  | nil => simp [startsList]
  | cons a as ih =>
    cases l with
    | nil => simp [startsList]
    | cons b bs => simp [startsList, ih, List.cons_prefix_cons]

theorem containsSub_iff (sub l : List Char) : containsSub sub l = true ↔ sub <:+: l := by
  induction l with
  | nil => simp [containsSub, List.isEmpty_iff, List.infix_nil]
  | cons c t ih => simp [containsSub, startsList_iff, ih, List.infix_cons_iff]

theorem pyEndsWith_imp_contains (f p q : String)
    (h : pyEndsWith f (p ++ q) = true) : pyContains f p = true := by
  unfold pyEndsWith at h
  unfold pyContains
  rw [containsSub_iff]
  rw [String.data_append, List.isSuffixOf_iff_suffix] at h
  exact (List.prefix_append p.data q.data).isInfix.trans h.isInfix

theorem pyContains_append_left (s t sub : String)
    (h : pyContains s sub = true) : pyContains (s ++ t) sub = true := by
  unfold pyContains at *
  rw [containsSub_iff] at *
  rw [String.data_append]
  exact h.trans (List.prefix_append s.data t.data).isInfix

theorem pyContains_append_right (s t sub : String)
    (h : pyContains t sub = true) : pyContains (s ++ t) sub = true := by
  unfold pyContains at *
  rw [containsSub_iff] at *
  rw [String.data_append]
  exact h.trans (List.suffix_append s.data t.data).isInfix

theorem contains_filter_ne (p : String) (fs : List String) :
    (fs.filter (fun q => !(q == p))).contains p = false := by
  induction fs with
  | nil => rfl
  | cons a t ih =>
    by_cases h : a = p
    · simp [List.filter_cons, h, ih]
    · simp [List.filter_cons, h, List.contains_cons, Ne.symm h, ih]

theorem fileExists_after_unlink (fs : List String) (p : String) :
    fileExists (applyOp fs (FsOp.unlink p)) p = false := by
  simp only [applyOp, fileExists]
  exact contains_filter_ne p fs

theorem splitFirst_some_contains (sep : Char) (l a b : List Char)
    (h : splitFirst sep l = some (a, b)) : containsSub [sep] l = true := by
  induction l generalizing a b with
  | nil => simp [splitFirst] at h
  | cons c t ih =>
    by_cases hc : c = sep
    · simp [containsSub, startsList, hc]
    · simp only [splitFirst, if_neg hc] at h
      rcases hsplit : splitFirst sep t with _ | ⟨x, y⟩
      · rw [hsplit] at h; simp at h
      · simp [containsSub, ih x y hsplit]

/-- C1: in every single-task run whose upload passes validation (so it is
staged), and every full-parse run whose upload passes validation, the staged
temporary input file is deleted exactly once by the time the handler exits —
whatever the task oracle's outcome (success, in-band failure, or a raised
exception) — and afterwards the staged path no longer exists in any
filesystem state the trace is applied to. -/
theorem C1_staged_temp_cleanup (f1 f2 taskType : String) (o : OcrOracle)
    (po : ParseOracle) (fs : List String)
    (h1 : extAllowed f1 = true)
    (h2 : pyEndsWith (lowerStr f2) ".pdf" = true) :
    countUnlinks o.tempPath (perform_ocr_task f1 taskType o).2 = 1 ∧
    fileExists (applyOps (perform_ocr_task f1 taskType o).2 fs) o.tempPath = false ∧
    countUnlinks po.tempPath (parse_document f2 po).ops = 1 ∧
    fileExists (applyOps (parse_document f2 po).ops fs) po.tempPath = false := by
  have hperf : (perform_ocr_task f1 taskType o).2 =
      [FsOp.create o.tempPath, FsOp.unlink o.tempPath] := by
    simp [perform_ocr_task, h1]
  have hpars : (parse_document f2 po).ops =
        [FsOp.create po.tempPath, FsOp.unlink po.tempPath] ∨
      ∃ zp, (parse_document f2 po).ops =
        [FsOp.create po.tempPath, FsOp.create zp, FsOp.unlink po.tempPath] := by
    unfold parse_document
    rcases po.parseResult with e | ⟨rd, w⟩
    · left; simp [h2]
    · right
      refine ⟨os_path_join parse_zip_directory
        (original_name_of f2 ++ "_parsed_" ++ toString po.timestamp ++ ".zip"), ?_⟩
      rcases po.zipErr with _ | e <;> simp [h2]
  refine ⟨?_, ?_, ?_, ?_⟩
  · rw [hperf]; simp [countUnlinks]
  · rw [hperf]
    simp only [applyOps, List.foldl_cons, List.foldl_nil]
    exact fileExists_after_unlink _ _
  · rcases hpars with h | ⟨zp, h⟩ <;> rw [h] <;> simp [countUnlinks]
  · rcases hpars with h | ⟨zp, h⟩ <;> rw [h] <;>
      simp only [applyOps, List.foldl_cons, List.foldl_nil] <;>
      exact fileExists_after_unlink _ _

theorem C1_witness :
    countUnlinks oracle₀.tempPath (perform_ocr_task "a.pdf" "text" oracle₀).2 = 1 ∧
    fileExists (applyOps (perform_ocr_task "a.pdf" "text" oracle₀).2 [])
      oracle₀.tempPath = false ∧
    countUnlinks po₀.tempPath (parse_document "b.pdf" po₀).ops = 1 ∧
    fileExists (applyOps (parse_document "b.pdf" po₀).ops []) po₀.tempPath = false :=
  C1_staged_temp_cleanup "a.pdf" "b.pdf" "text" oracle₀ po₀ [] (by decide) (by decide)

/-- C2: a single-task upload whose extension (case-insensitively) is outside
the pdf/jpg/jpeg/png allow-list yields an in-band TaskResponse with
success=false whose message names the unsupported file type, and the handler
performs no filesystem operation (no staged temp file is created or left
behind); an upload with an allowed extension is staged (the trace creates the
temp file, then removes it). -/
theorem C2_unsupported_extension_inband (filename taskType : String) (o : OcrOracle) :
    (extAllowed filename = false →
      (perform_ocr_task filename taskType o).1.success = false ∧
      (∃ m, (perform_ocr_task filename taskType o).1.message = some m ∧
        pyContains m "Unsupported file type" = true) ∧
      (perform_ocr_task filename taskType o).2 = []) ∧
    (extAllowed filename = true →
      (perform_ocr_task filename taskType o).2 =
        [FsOp.create o.tempPath, FsOp.unlink o.tempPath]) := by
  constructor
  · intro h
    refine ⟨by simp [perform_ocr_task, h],
      ⟨"OCR task failed: " ++ Exn.str (Exn.http 400
        ("Unsupported file type: " ++ lowerStr (pySuffix filename) ++
          ". Allowed: " ++ allowed_join)),
        by simp [perform_ocr_task, h], ?_⟩,
      by simp [perform_ocr_task, h]⟩
    simp only [Exn.str]
    apply pyContains_append_right
    apply pyContains_append_right
    apply pyContains_append_left
    apply pyContains_append_left
    apply pyContains_append_left
    decide
  · intro h
    simp [perform_ocr_task, h]

theorem C2_witness :
    (perform_ocr_task "a.txt" "text" oracle₀).1.success = false ∧
    (perform_ocr_task "a.pdf" "text" oracle₀).2 =
      [FsOp.create oracle₀.tempPath, FsOp.unlink oracle₀.tempPath] :=
  ⟨((C2_unsupported_extension_inband "a.txt" "text" oracle₀).1 (by decide)).1,
   (C2_unsupported_extension_inband "a.pdf" "text" oracle₀).2 (by decide)⟩

/-- C3: a single-task run whose result directory listing has no file matching
the glob `*_{task_type}_result*` (no name containing `_{task_type}_result`)
returns the in-band failure TaskResponse with success=false and the message
"OCR task failed: No result file generated". -/
theorem C3_missing_result_inband (filename taskType : String) (o : OcrOracle)
    (files : List String)
    (h1 : extAllowed filename = true)
    (h2 : o.task = Except.ok files)
    (h3 : ∀ f ∈ files, pyContains f ("_" ++ taskType ++ "_result") = false) :
    (perform_ocr_task filename taskType o).1.success = false ∧
    (perform_ocr_task filename taskType o).1.message =
      some "OCR task failed: No result file generated" := by
  have hfilter : files.filter
      (fun f => pyEndsWith f ("_" ++ taskType ++ "_result.md")) = [] := by
    rw [List.filter_eq_nil_iff]
    intro f hf hend
    have e2 : ("_" ++ taskType) ++ "_result.md" =
        (("_" ++ taskType) ++ "_result") ++ ".md" := by
      rw [String.append_assoc ("_" ++ taskType) "_result" ".md"]
      rfl
    rw [e2] at hend
    have hc := pyEndsWith_imp_contains f (("_" ++ taskType) ++ "_result") ".md" hend
    rw [h3 f hf] at hc
    exact Bool.false_ne_true hc
  constructor <;> simp [perform_ocr_task, h1, h2, hfilter]

theorem C3_witness :
    (perform_ocr_task "a.pdf" "text" oracle₀).1.success = false ∧
    (perform_ocr_task "a.pdf" "text" oracle₀).1.message =
      some "OCR task failed: No result file generated" :=
  C3_missing_result_inband "a.pdf" "text" oracle₀ [] (by decide) rfl (by simp)

/-- C4: the Archive Builder's entry naming is exactly the fixed ordered
first-match-wins rule chain of the spec (suffix rules for `.md`,
`_content_list.json`, `_middle.json`, `_model.pdf`, `_layout.pdf`,
`_spans.pdf`, then the `images/` rule, then the default), and on a result
directory holding report.md, report_content_list.json and images/fig1.png with
seed `doc` the archive entries are doc.md, doc_content_list.json and
images/doc_fig1.png. -/
theorem C4_naming_policy :
    (∀ seed rel, new_filename seed rel =
      applyRules (defaultRule seed) rel (namingRules seed)) ∧
    (parse_document "doc.pdf" exampleOracle).zipEntries =
      ["doc.md", "doc_content_list.json", "images/doc_fig1.png"] := by
  constructor
  · intro seed rel
    rfl
  · decide

/-- C5: a full-parse upload whose filename does not end in `.pdf`
(case-insensitively) makes `parse_document` raise a transport-level HTTP error
(the validation HTTPException, re-wrapped by the outer handler into a 500
whose detail carries the "Only PDF files are supported" message), while the
single-task family turns the analogous validation failure into an in-band
TaskResponse value with success=false — the asymmetry between the endpoint
families. -/
theorem C5_parse_transport_error (filename taskType : String) (po : ParseOracle)
    (o : OcrOracle)
    (h : pyEndsWith (lowerStr filename) ".pdf" = false) :
    (parse_document filename po).result =
      Except.error (Exn.http 500 ("Parsing failed: " ++
        Exn.str (Exn.http 400 "Only PDF files are supported for document parsing"))) ∧
    (extAllowed filename = false →
      (perform_ocr_task filename taskType o).1.success = false ∧
      (perform_ocr_task filename taskType o).2 = []) := by
  refine ⟨by simp [parse_document, h], fun h2 => ⟨?_, ?_⟩⟩ <;>
    simp [perform_ocr_task, h2]

theorem C5_witness :
    (parse_document "a.txt" po₀).result =
      Except.error (Exn.http 500 ("Parsing failed: " ++
        Exn.str (Exn.http 400 "Only PDF files are supported for document parsing"))) :=
  (C5_parse_transport_error "a.txt" "text" po₀ oracle₀ (by decide)).1

/-- C6: the claim that the archive output directory, the `/static` mount
directory and the `/download` directory coincide is false in the code: the
archive and `/download` both use `/app/tmp`, but the `/static` mount serves
`/workspace/MonkeyOCR/app/temp`, so the `download_url` returned by a
successful parse (here `/static/report_parsed_111.zip`) names a static path
while the archive was created under `/app/tmp`. -/
theorem C6_static_mount_mismatch :
    download_directory = parse_zip_directory ∧
    static_mount_directory ≠ parse_zip_directory ∧
    (parse_document "report.pdf" c6Oracle).result =
      Except.ok ⟨true, "Document parsing completed successfully", some "/resdir",
        some ["report.md"], some "/static/report_parsed_111.zip"⟩ ∧
    (parse_document "report.pdf" c6Oracle).ops =
      [FsOp.create "/tmp/in", FsOp.create "/app/tmp/report_parsed_111.zip",
       FsOp.unlink "/tmp/in"] := by
  refine ⟨rfl, by decide, rfl, rfl⟩

/-- C7: the log-upload handler drains the log directory (leaving it existing
and empty) exactly when makedirs, zip and upload all succeed; when any step
raises, it returns the in-band failure TaskResponse with success=false and
task_type "Log", and the log directory's contents are unchanged. -/
theorem C7_log_drain (o : LogOracle) (st : LogState) :
    ((upload_logs_to_AWS_S3 o st).2.2 = true ↔
      o.mkdirsErr = none ∧ o.zipErr = none ∧ o.uploadErr = none) ∧
    ((upload_logs_to_AWS_S3 o st).2.2 = true →
      (upload_logs_to_AWS_S3 o st).2.1 = ⟨true, []⟩ ∧
      (upload_logs_to_AWS_S3 o st).1.success = true ∧
      (upload_logs_to_AWS_S3 o st).1.task_type = "Log") ∧
    ((upload_logs_to_AWS_S3 o st).2.2 = false →
      (upload_logs_to_AWS_S3 o st).1.success = false ∧
      (upload_logs_to_AWS_S3 o st).1.task_type = "Log" ∧
      (upload_logs_to_AWS_S3 o st).2.1.contents = st.contents) := by
  rcases o with ⟨m, z, u⟩
  rcases m with _ | e1 <;> rcases z with _ | e2 <;> rcases u with _ | e3 <;>
    simp [upload_logs_to_AWS_S3, delete_files_in_directory]

theorem C7_witness :
    (upload_logs_to_AWS_S3 logOracle₀ logSt₀).2.1 = ⟨true, []⟩ ∧
    (upload_logs_to_AWS_S3 logOracle₀ logSt₀).1.success = true ∧
    (upload_logs_to_AWS_S3 logOracle₀ logSt₀).1.task_type = "Log" :=
  (C7_log_drain logOracle₀ logSt₀).2.1 rfl

/-- C8: a url that does not start with the `s3://` scheme makes the download
fail with the InvalidLocator ValueError before any boto3 client is created or
any object fetched, and a fetch is only ever attempted for urls of the
`s3://bucket/key` shape (scheme present and a slash after it). -/
theorem C8_invalid_locator (url : String) :
    (pyStartsWith url "s3://" = false →
      download_file_from_s3 url =
        ⟨false, false, Except.error "Invalid S3 URL format"⟩) ∧
    ((download_file_from_s3 url).fetched = true →
      pyStartsWith url "s3://" = true ∧
      pyContains (String.mk (url.data.drop 5)) "/" = true) := by
  constructor
  · intro h
    simp [download_file_from_s3, h]
  · intro h
    by_cases hs : pyStartsWith url "s3://" = true
    · refine ⟨hs, ?_⟩
      rcases hsplit : splitFirst '/' (url.data.drop 5) with _ | ⟨a, b⟩
      · rw [download_file_from_s3, if_neg (by simp [hs]), hsplit] at h
        simp at h
      · exact splitFirst_some_contains '/' (url.data.drop 5) a b hsplit
    · rw [download_file_from_s3, if_pos (by simpa using hs)] at h
      simp at h

theorem C8_witness :
    download_file_from_s3 "http://bucket/key" =
      ⟨false, false, Except.error "Invalid S3 URL format"⟩ :=
  (C8_invalid_locator "http://bucket/key").1 (by decide)

/-- C9: in every pool state reachable by the Task Runner model, at most
`executorMaxWorkers` (two) jobs run concurrently, jobs start in exactly their
submission order (the submission history is the start history followed by the
pending queue), no submission is dropped (queued, running and finished jobs
are a permutation of all submissions), and once the queue and the running set
are empty the number of completions equals the number of submissions. -/
theorem C9_bounded_pool (s : PoolState) (h : PoolReach s) :
    s.running.length ≤ executorMaxWorkers ∧
    s.submitted = s.started ++ s.queued ∧
    (s.queued ++ s.running ++ s.done).Perm s.submitted ∧
    (s.queued = [] → s.running = [] → s.done.length = s.submitted.length) := by
  have main : s.running.length ≤ executorMaxWorkers ∧
      s.submitted = s.started ++ s.queued ∧
      (s.queued ++ s.running ++ s.done).Perm s.submitted := by
    induction h with
    | init => simp [PoolState.initState]
    | step hr hstep ih =>
      obtain ⟨ih1, ih2, ih3⟩ := ih
      cases hstep with
      | submit j s =>
        refine ⟨ih1, ?_, ?_⟩
        · simp [ih2, List.append_assoc]
        · rw [List.perm_iff_count]
          intro a
          have h3 := ih3.count_eq a
          simp only [List.count_append] at h3 ⊢
          omega
      | start j rest s hq hcap =>
        refine ⟨?_, ?_, ?_⟩
        · simp only [List.length_append, List.length_cons, List.length_nil]
          omega
        · rw [ih2, hq]
          simp
        · rw [List.perm_iff_count]
          intro a
          have h3 := ih3.count_eq a
          rw [hq] at h3
          simp only [List.count_append, List.count_cons, List.count_nil] at h3 ⊢
          omega
      | finish j s hj =>
        refine ⟨?_, ih2, ?_⟩
        · have h5 := List.length_erase_of_mem hj
          dsimp only
          omega
        · rw [List.perm_iff_count]
          intro a
          have h3 := ih3.count_eq a
          have h4 := (List.perm_cons_erase hj).count_eq a
          simp only [List.count_append, List.count_cons, List.count_nil] at h3 h4 ⊢
          omega
  obtain ⟨m1, m2, m3⟩ := main
  refine ⟨m1, m2, m3, fun hq hr => ?_⟩
  have hl := m3.length_eq
  simp only [hq, hr, List.nil_append, List.length_append] at hl
  simpa using hl

theorem poolDemo_reach : PoolReach poolDemo :=
  PoolReach.step
    (PoolReach.step
      (PoolReach.step
        (PoolReach.step
          (PoolReach.step PoolReach.init (PoolStep.submit 0 PoolState.initState))
          (PoolStep.submit 1 ⟨[0], [], [], [0], []⟩))
        (PoolStep.submit 2 ⟨[0, 1], [], [], [0, 1], []⟩))
      (PoolStep.start 0 [1, 2] ⟨[0, 1, 2], [], [], [0, 1, 2], []⟩ rfl (by decide)))
    (PoolStep.start 1 [2] ⟨[1, 2], [0], [], [0, 1, 2], [0]⟩ rfl (by decide))

theorem C9_witness :
    poolDemo.running.length ≤ executorMaxWorkers ∧
    poolDemo.submitted = poolDemo.started ++ poolDemo.queued ∧
    (poolDemo.queued ++ poolDemo.running ++ poolDemo.done).Perm poolDemo.submitted :=
  ⟨(C9_bounded_pool poolDemo poolDemo_reach).1,
   (C9_bounded_pool poolDemo poolDemo_reach).2.1,
   (C9_bounded_pool poolDemo poolDemo_reach).2.2.1⟩

/-- C10: when the S3 download succeeds, the S3 endpoint delegates to the
single-task pipeline with the fixed synthetic filename `from_s3.pdf`
independently of the downloaded bytes; that name passes the extension
validation, so the UnsupportedFileType branch is unreachable on this path and
the upload is always staged (the trace creates and removes the temp file). -/
theorem C10_s3_fixed_filename (bytes : List Nat) (o : OcrOracle) :
    extract_text_from_s3 (Except.ok bytes) o =
      perform_ocr_task from_s3_filename "text" o ∧
    extAllowed from_s3_filename = true ∧
    (extract_text_from_s3 (Except.ok bytes) o).2 =
      [FsOp.create o.tempPath, FsOp.unlink o.tempPath] := by
  have h : extAllowed from_s3_filename = true := by decide
  exact ⟨rfl, h, by simp [extract_text_from_s3, perform_ocr_task, h]⟩
